import Mathlib

/-!
Shallow embedding of the inventory backend in `agriturismo_app/app.py`
(Flask + Firestore).  The parts relevant to the claims are:

* the movement validator inside the `/movements` route (`create_movement`,
  lines 237-354 of `app.py`);
* the transactional stock update (`update_product_stock_transactional`,
  lines 153-231);
* the dashboard aggregation (`get_dashboard_data`, lines 359-390);
* the product-detail aggregation (`get_product_detail`, lines 395-485).

Numbers are modelled exactly as rationals (Python `int`/`float` values),
JSON payload values as the inductive `JVal`, Firestore documents as
structures whose fields are `Option`-valued (a `none` field is an absent
field), and server timestamps as a `Nat` parameter `now`.

At the spec level the two movement types are called "load" and "unload";
on the wire (and in the source) they are spelled `"carico"` and
`"scarico"`.  Error messages are modelled by inductive error codes, one
constructor per `return jsonify(...)` / `raise ValueError(...)` site.
-/

set_option autoImplicit false

namespace Casale

instance {ε α : Type} [DecidableEq ε] [DecidableEq α] : DecidableEq (Except ε α)
  | Except.error a, Except.error b =>
      if h : a = b then isTrue (by rw [h]) else isFalse (by simp [h])
  | Except.error _, Except.ok _ => isFalse (by simp)
  | Except.ok _, Except.error _ => isFalse (by simp)
  | Except.ok a, Except.ok b =>
      if h : a = b then isTrue (by rw [h]) else isFalse (by simp [h])

/-- A JSON value as it appears in a request payload or a stored document.
Python booleans are kept separate from numbers because `isinstance(True, int)`
holds in Python and several checks in the source depend on it. -/
inductive JVal where
  | num (q : ℚ)
  | str (s : String)
  | jbool (b : Bool)
  | null
  deriving DecidableEq, Repr

/-- Model of Python `dict.get(key)` on an `Option JVal` field: a field stored
as JSON `null` and an absent field both come back as Python `None`. -/
def pget (v : Option JVal) : Option JVal :=
  match v with
  | some JVal.null => none
  | x => x

/-- Python truthiness of a JSON value (`if value:`). -/
def jtruthy : JVal → Bool
  | JVal.num q => q ≠ 0
  | JVal.str s => s ≠ ""
  | JVal.jbool b => b
  | JVal.null => false

/-- Numeric value of the digit characters `cs` read in base 10. -/
def natOfDigits (cs : List Char) : ℕ :=
  cs.foldl (fun a c => a * 10 + (c.toNat - 48)) 0

/-- Drop whitespace from both ends of a character list. -/
def trimChars (cs : List Char) : List Char :=
  ((cs.dropWhile Char.isWhitespace).reverse.dropWhile Char.isWhitespace).reverse

/-- Python `s.strip()` (whitespace fragment). -/
def pyStrip (s : String) : String := ⟨trimChars s.data⟩

/-- Split a character list at every `-` separator; models the shape of the
compiled `%Y-%m-%d` pattern, whose two literal separators are the only
places a `-` may appear. -/
def splitDashes : List Char → List (List Char)
  | [] => [[]]
  | c :: rest =>
    if c = '-' then [] :: splitDashes rest
    else
      match splitDashes rest with
      | g :: gs => (c :: g) :: gs
      | [] => [[c]]

/-- Lexicographic comparison of character lists by code point. -/
def charListLt : List Char → List Char → Bool
  | _, [] => false
  | [], _ :: _ => true
  | a :: as, b :: bs => if a < b then true else if b < a then false else charListLt as bs

/-- Python string `<`: lexicographic on code points. -/
def pyStrLt (a b : String) : Bool := charListLt a.data b.data

/-- Exponent suffix of a Python float literal: empty, or `e`/`E` followed by
an optional sign and at least one digit.  `mant` is the mantissa parsed so
far. -/
def parseExpSuffix (mant : ℚ) (cs : List Char) : Option ℚ :=
  match cs with
  | [] => some mant
  | c :: rest =>
    if c = 'e' ∨ c = 'E' then
      let signAndDigits : (Bool × List Char) :=
        match rest with
        | '+' :: r => (true, r)
        | '-' :: r => (false, r)
        | r => (true, r)
      let ds := signAndDigits.2
      if ds ≠ [] ∧ ds.all Char.isDigit then
        let e := natOfDigits ds
        some (if signAndDigits.1 then mant * 10 ^ e else mant / 10 ^ e)
      else none
    else none

/-- Unsigned part of a Python float literal: `digits`, `digits.`,
`digits.digits` or `.digits`, each with an optional exponent suffix. -/
def parseUnsignedFloat (cs : List Char) : Option ℚ :=
  let intPart := cs.takeWhile Char.isDigit
  let rest := cs.dropWhile Char.isDigit
  match rest with
  | [] => if intPart = [] then none else some ((natOfDigits intPart : ℚ))
  | '.' :: rest2 =>
    let fracPart := rest2.takeWhile Char.isDigit
    let rest3 := rest2.dropWhile Char.isDigit
    if intPart = [] ∧ fracPart = [] then none
    else
      parseExpSuffix
        ((natOfDigits intPart : ℚ) + (natOfDigits fracPart : ℚ) / 10 ^ fracPart.length)
        rest3
  | _ =>
    if intPart = [] then none
    else parseExpSuffix ((natOfDigits intPart : ℚ)) rest

/-- Model of Python `float(s)` on a string: surrounding whitespace is
stripped, an optional sign precedes an unsigned decimal literal.
(`inf`/`nan`/underscore forms are outside the modelled fragment.) -/
def pyFloat (s : String) : Option ℚ :=
  match trimChars s.data with
  | '+' :: r => parseUnsignedFloat r
  | '-' :: r => (parseUnsignedFloat r).map Neg.neg
  | r => parseUnsignedFloat r

/-- Model of Python `float(value)` after an `isinstance(value, (int, float, str))`
style check: numbers are themselves, booleans are 1/0, strings go through
`pyFloat`, `None` has no numeric value. -/
def jvalToFloat : JVal → Option ℚ
  | JVal.num q => some q
  | JVal.jbool b => some (if b then 1 else 0)
  | JVal.str s => pyFloat s
  | JVal.null => none

/-- Gregorian leap year, as in Python `datetime`. -/
def isLeap (y : ℕ) : Bool :=
  (y % 4 = 0 && y % 100 ≠ 0) || y % 400 = 0

/-- Number of days of month `m` of year `y`, as in Python `datetime`. -/
def daysInMonth (y m : ℕ) : ℕ :=
  if m = 2 then (if isLeap y then 29 else 28)
  else if m = 4 ∨ m = 6 ∨ m = 9 ∨ m = 11 then 30
  else 31

/-- Model of Python `datetime.strptime(s, "%Y-%m-%d")`, returning the parsed
`(year, month, day)` or `none` on `ValueError`.  CPython compiles `%Y` to
exactly four digits while `%m` and `%d` accept one or two digits (so
`2025-1-2` parses); the constructed `datetime` then requires a real calendar
date with year at least 1. -/
def parseYMD (s : String) : Option (ℕ × ℕ × ℕ) :=
  match splitDashes s.data with
  | [yc, mc, dc] =>
    if yc.length = 4 ∧ yc.all Char.isDigit ∧
       (mc.length = 1 ∨ mc.length = 2) ∧ mc.all Char.isDigit ∧
       (dc.length = 1 ∨ dc.length = 2) ∧ dc.all Char.isDigit then
      let y := natOfDigits yc
      let m := natOfDigits mc
      let d := natOfDigits dc
      if 1 ≤ y ∧ 1 ≤ m ∧ m ≤ 12 ∧ 1 ≤ d ∧ d ≤ daysInMonth y m then
        some (y, m, d)
      else none
    else none
  | _ => none

/-- Strict order on parsed dates, as comparison of Python `datetime` values. -/
def ymdLt (a b : ℕ × ℕ × ℕ) : Bool :=
  a.1 < b.1 ||
    (a.1 = b.1 && (a.2.1 < b.2.1 || (a.2.1 = b.2.1 && a.2.2 < b.2.2)))

/-- A `/movements` request payload; each field is absent (`none`) or holds a
JSON value.  Fields not inspected by the route are omitted. -/
structure Payload where
  date : Option JVal := none
  movementType : Option JVal := none
  productName : Option JVal := none
  quantity : Option JVal := none
  unitPrice : Option JVal := none
  expiryDate : Option JVal := none
  supplier : Option JVal := none
  notes : Option JVal := none
  deriving DecidableEq, Repr

/-- Validation rejections of the `/movements` route, one constructor per
`return jsonify({"error": ...}), 400` site of `create_movement`; each
carries the offending field name where the message does. -/
inductive VErr where
  | missingField (f : String)
  | invalidType (f : String)
  | emptyField (f : String)
  | emptyProductName
  | invalidMovementType
  | invalidQuantity
  | nonPositiveQuantity
  | invalidUnitPrice
  | nonPositiveUnitPrice
  | dateNotString (f : String)
  | invalidDateFormat (f : String)
  | invalidSupplierType
  | invalidNotesType
  deriving DecidableEq, Repr

/-- The canonical movement record built by `create_movement` (lines 321-333);
`createdAt` (a server timestamp) is attached by the store and not modelled
on the record. -/
structure Movement where
  userId : String
  date : String
  supplier : Option String
  movementType : String
  productName : String
  quantity : ℚ
  unitPrice : Option ℚ
  totalValue : ℚ
  expiryDate : Option String
  notes : Option String
  deriving DecidableEq, Repr

/-- One pass of the required-field loop (lines 252-267) for the three string
fields `date`, `movementType`, `productName`: present, a string, non-blank
after stripping. -/
def getStrField (name : String) (v : Option JVal) : Except VErr String :=
  match pget v with
  | none => Except.error (VErr.missingField name)
  | some (JVal.str s) =>
      if pyStrip s = "" then Except.error (VErr.emptyField name) else Except.ok s
  | some _ => Except.error (VErr.invalidType name)

/-- One pass of the required-field loop for `quantity`: present, a number
(Python booleans count), or a string convertible by `float`. -/
def getQuantityRaw (v : Option JVal) : Except VErr JVal :=
  match pget v with
  | none => Except.error (VErr.missingField "quantity")
  | some (JVal.num q) => Except.ok (JVal.num q)
  | some (JVal.jbool b) => Except.ok (JVal.jbool b)
  | some (JVal.str s) =>
      if pyFloat s = none then Except.error (VErr.invalidType "quantity")
      else Except.ok (JVal.str s)
  | some JVal.null => Except.error (VErr.invalidType "quantity")

/-- Date-format validation loop body (lines 302-310) for the field `name`:
skipped when the value is absent or falsy, otherwise the value must be a
string accepted by `strptime(_, "%Y-%m-%d")`. -/
def checkDateField (name : String) (v : Option JVal) : Except VErr Unit :=
  match pget v with
  | none => Except.ok ()
  | some jv =>
    if jtruthy jv then
      match jv with
      | JVal.str s =>
          if parseYMD s = none then Except.error (VErr.invalidDateFormat name)
          else Except.ok ()
      | _ => Except.error (VErr.dateNotString name)
    else Except.ok ()

/-- `unitPrice` validation (lines 284-295): optional; if present it must be a
number, a boolean, or a numeric string, and its float value must be
strictly positive (the source rejects `parsed_unit_price <= 0`). -/
def getUnitPrice (v : Option JVal) : Except VErr (Option ℚ) :=
  match pget v with
  | none => Except.ok none
  | some jv =>
    match jvalToFloat jv with
    | none => Except.error VErr.invalidUnitPrice
    | some q =>
        if q ≤ 0 then Except.error VErr.nonPositiveUnitPrice
        else Except.ok (some q)

/-- Optional string field check for `supplier` / `notes` (lines 312-319). -/
def getOptionalStr (err : VErr) (v : Option JVal) : Except VErr (Option String) :=
  match pget v with
  | none => Except.ok none
  | some (JVal.str s) => Except.ok (some s)
  | some _ => Except.error err

/-- Python `s.strip() if s else None` used when building the record. -/
def stripOrNone (v : Option String) : Option String :=
  match v with
  | some s => if s = "" then none else some (pyStrip s)
  | none => none

/-- The validation and record-building stage of `create_movement`
(lines 244-333): from the JSON payload and the session user to either a 400
rejection or the canonical movement record handed to the transaction and
appended to the `movements` collection. -/
def validate_movement (userId : String) (data : Payload) : Except VErr Movement := do
  let dateStr ← getStrField "date" data.date
  let movementTypeStr ← getStrField "movementType" data.movementType
  let productNameRaw ← getStrField "productName" data.productName
  let quantityRaw ← getQuantityRaw data.quantity
  let product_name_stripped := pyStrip productNameRaw
  if product_name_stripped = "" then throw VErr.emptyProductName
  let movement_type := movementTypeStr
  if ¬ (movement_type = "carico" ∨ movement_type = "scarico") then
    throw VErr.invalidMovementType
  let quantity ←
    match jvalToFloat quantityRaw with
    | none => throw VErr.invalidQuantity
    | some q => pure q
  if quantity ≤ 0 then throw VErr.nonPositiveQuantity
  let unit_price ← getUnitPrice data.unitPrice
  let total_value :=
    match unit_price with
    | some p => if movement_type = "carico" then quantity * p else 0
    | none => 0
  checkDateField "date" data.date
  checkDateField "expiryDate" data.expiryDate
  let supplier ← getOptionalStr VErr.invalidSupplierType data.supplier
  let notes ← getOptionalStr VErr.invalidNotesType data.notes
  let expiryDateStored : Option String :=
    match pget data.expiryDate with
    | some (JVal.str s) => if s = "" then none else some s
    | _ => none
  pure
    { userId := userId
      date := dateStr
      supplier := stripOrNone supplier
      movementType := movement_type
      productName := product_name_stripped
      quantity := quantity
      unitPrice := unit_price
      totalValue := total_value
      expiryDate := expiryDateStored
      notes := stripOrNone notes }

/-- Domain rejections raised (as `ValueError`) inside
`update_product_stock_transactional` and mapped to HTTP 400 by the route. -/
inductive DomainErr where
  | productNotFound
  | insufficientStock
  | invalidMovementType
  deriving DecidableEq, Repr

/-- A document of the `products` collection as manipulated by the write path:
every field is optional (absent when `none`).  `createdAt` is a server
timestamp. -/
structure Product where
  productName : Option String := none
  quantity : Option ℚ := none
  nearestExpiry : Option String := none
  lastUpdatedBy : Option String := none
  createdAt : Option ℕ := none
  deriving DecidableEq, Repr

/-- `update_product_stock_transactional` (lines 153-231): one transactional
read-modify-write of the product document.  `store` is the current document
(`none` when the snapshot does not exist), `now` the server timestamp used
for `createdAt`.  Returns the written document, or the `ValueError` the
route converts to a 400.  On error nothing has been written. -/
def update_product_stock_transactional (store : Option Product)
    (mv : Movement) (userId : String) (now : ℕ) : Except DomainErr Product :=
  let product_data : Product := store.getD {}
  if mv.movementType = "carico" then
    let new_quantity := product_data.quantity.getD 0 + mv.quantity
    let base : Product :=
      { product_data with
          quantity := some new_quantity
          lastUpdatedBy := some userId
          productName := some mv.productName }
    let base1 : Product :=
      if store = none then { base with createdAt := some now } else base
    let base2 : Product :=
      match mv.expiryDate with
      | none => base1
      | some e =>
        if e = "" then base1
        else
          let current_expiry := product_data.nearestExpiry
          let should_update_expiry : Bool :=
            match current_expiry with
            | none => true
            | some c =>
              if c = "" then true
              else
                match parseYMD e, parseYMD c with
                | some de, some dc => ymdLt de dc
                | _, _ => false
          if should_update_expiry then { base1 with nearestExpiry := some e }
          else base1
    Except.ok base2
  else if mv.movementType = "scarico" then
    match store with
    | none => Except.error DomainErr.productNotFound
    | some p =>
      let current_quantity := p.quantity.getD 0
      if current_quantity < mv.quantity then
        Except.error DomainErr.insufficientStock
      else
        Except.ok
          { p with
              quantity := some (current_quantity - mv.quantity)
              lastUpdatedBy := some userId }
  else Except.error DomainErr.invalidMovementType

/-- Error payload of a failed `/movements` request. -/
inductive MovementError where
  | validation (e : VErr)
  | domain (e : DomainErr)
  deriving DecidableEq, Repr

/-- Observable outcome of one `/movements` request: HTTP status, the error
(if any), the product document after the request, and the `movements`
collection after the request. -/
structure MovementOutcome where
  status : ℕ
  error : Option MovementError
  store : Option Product
  log : List Movement
  deriving DecidableEq, Repr

/-- The `/movements` route `create_movement` (lines 237-354) for a logged-in
user: validation, then the transactional stock update, then the append of
the movement record to the log.  A `ValueError` from the transaction is
turned into a 400 and leaves both the product document and the log
unchanged. -/
def create_movement (userId : String) (data : Payload)
    (store : Option Product) (log : List Movement) (now : ℕ) : MovementOutcome :=
  match validate_movement userId data with
  | Except.error e => ⟨400, some (MovementError.validation e), store, log⟩
  | Except.ok mv =>
    match update_product_stock_transactional store mv userId now with
    | Except.error de => ⟨400, some (MovementError.domain de), store, log⟩
    | Except.ok p => ⟨201, none, some p, log ++ [mv]⟩

/-- Product state transition of one transactional apply: on success the new
document, on a raised `ValueError` the unchanged state (the transaction
aborts without writing). -/
def applyMovement (now : ℕ) (store : Option Product) (req : String × Movement) :
    Option Product :=
  match update_product_stock_transactional store req.2 req.1 now with
  | Except.ok p => some p
  | Except.error _ => store

/-- Product state after a sequence of transactional applies
(each `req = (userId, movement)`), starting from `store`. -/
def applyMovements (now : ℕ) (store : Option Product)
    (reqs : List (String × Movement)) : Option Product :=
  reqs.foldl (applyMovement now) store

/-- A raw document of the `products` collection as seen by the read paths:
`id` is the Firestore document id (always a string), each field is absent
(`none`) or holds an arbitrary JSON value (possibly `null`). -/
structure ProductDoc where
  id : String
  productName : Option JVal := none
  quantity : Option JVal := none
  nearestExpiry : Option JVal := none
  lastUpdatedBy : Option JVal := none
  deriving DecidableEq, Repr

/-- One dashboard entry, as built at lines 371-378. -/
structure DashboardItem where
  productName : JVal
  quantity : JVal
  nearestExpiry : JVal
  lastUpdatedBy : JVal
  deriving DecidableEq, Repr

/-- The `item` dictionary of the dashboard loop: `productName` falls back to
the document id when the field is absent, the other fields fall back to
`None`. -/
def dashboardItemOf (d : ProductDoc) : DashboardItem :=
  { productName := d.productName.getD (JVal.str d.id)
    quantity := d.quantity.getD JVal.null
    nearestExpiry := d.nearestExpiry.getD JVal.null
    lastUpdatedBy := d.lastUpdatedBy.getD JVal.null }

/-- `get_dashboard_data` (lines 359-390): each product document yields its
item when `productName`, `quantity` and `lastUpdatedBy` of the item are all
non-`None`; otherwise the document is logged and skipped. -/
def get_dashboard_data : List ProductDoc → List DashboardItem
  | [] => []
  | d :: rest =>
    let item := dashboardItemOf d
    if item.productName ≠ JVal.null ∧ item.quantity ≠ JVal.null ∧
       item.lastUpdatedBy ≠ JVal.null
    then item :: get_dashboard_data rest
    else get_dashboard_data rest

/-- A raw document of the `movements` collection as seen by the read path of
`get_product_detail`; `createdAt` is a server timestamp when present. -/
structure MovementDoc where
  id : String
  movementType : Option JVal := none
  quantity : Option JVal := none
  unitPrice : Option JVal := none
  expiryDate : Option JVal := none
  createdAt : Option ℕ := none
  deriving DecidableEq, Repr

/-- `isinstance(v, (int, float))` with the numeric value (booleans count). -/
def numVal : Option JVal → Option ℚ
  | some (JVal.num q) => some q
  | some (JVal.jbool b) => some (if b then 1 else 0)
  | _ => none

/-- `movement.get('movementType') == 'carico'`. -/
def isCarico (m : MovementDoc) : Bool :=
  m.movementType = some (JVal.str "carico")

/-- The guard at lines 452-453: a load whose `unitPrice` and `quantity` are
both numbers strictly greater than 0 contributes to the price totals. -/
def loadContributes (m : MovementDoc) : Bool :=
  isCarico m &&
    (match numVal m.unitPrice, numVal m.quantity with
     | some p, some q => decide (0 < p) && decide (0 < q)
     | _, _ => false)

/-- `total_value_of_loads` accumulated by the loop at lines 435-455. -/
def total_value_of_loads (movs : List MovementDoc) : ℚ :=
  ((movs.filter loadContributes).map
    (fun m => (numVal m.unitPrice).getD 0 * (numVal m.quantity).getD 0)).sum

/-- `total_quantity_of_loads` accumulated by the same loop. -/
def total_quantity_of_loads (movs : List MovementDoc) : ℚ :=
  ((movs.filter loadContributes).map (fun m => (numVal m.quantity).getD 0)).sum

/-- `average_unit_price` (lines 461-463): the weighted average, or 0 when no
load qualifies. -/
def average_unit_price (movs : List MovementDoc) : ℚ :=
  if 0 < total_quantity_of_loads movs then
    total_value_of_loads movs / total_quantity_of_loads movs
  else 0

/-- Round x to the nearest integer, ties to the even integer — the rounding
of Python `round` (numbers modelled exactly as rationals). -/
def roundHalfEven (x : ℚ) : ℤ :=
  let f := ⌊x⌋
  let r := x - f
  if r < 1 / 2 then f
  else if 1 / 2 < r then f + 1
  else if f % 2 = 0 then f else f + 1

/-- Python `round(x, 2)`. -/
def round2 (x : ℚ) : ℚ := (roundHalfEven (x * 100) : ℚ) / 100

/-- The expiry-date collection condition at lines 457-459: a truthy string
whose stripped form is non-empty. -/
def expiryEntry (m : MovementDoc) : Option String :=
  match m.expiryDate with
  | some (JVal.str s) => if s ≠ "" ∧ pyStrip s ≠ "" then some (pyStrip s) else none
  | _ => none

/-- Insert `s` into an ascending list of distinct strings, keeping it
ascending and distinct. -/
def insertDate (s : String) : List String → List String
  | [] => [s]
  | x :: xs =>
    if pyStrLt s x then s :: x :: xs
    else if s = x then x :: xs
    else x :: insertDate s xs

/-- `sorted(list(expiration_dates_set))` (line 465): the distinct collected
expiry dates of load movements, ascending. -/
def expiration_date_history (movs : List MovementDoc) : List String :=
  ((movs.filter isCarico).filterMap expiryEntry).foldl
    (fun acc s => insertDate s acc) []

/-- One element of the `movements` list of the detail response: the raw
document with its store timestamp made portable and its id attached
(lines 439-446). -/
structure MovementOut where
  doc : MovementDoc
  createdAt : Option ℕ
  movementId : String
  deriving DecidableEq, Repr

/-- The per-movement conversion of the detail loop. -/
def movementOutOf (m : MovementDoc) : MovementOut :=
  { doc := m, createdAt := m.createdAt, movementId := m.id }

/-- `total_quantity_in_stock` (lines 418-421): the stored `quantity` field,
defaulting to 0 when absent, and forced to 0 (with a logged warning) when
the stored value is not a number. -/
def total_quantity_in_stock (d : ProductDoc) : ℚ :=
  match d.quantity.getD (JVal.num 0) with
  | JVal.num q => q
  | JVal.jbool b => if b then 1 else 0
  | _ => 0

/-- The 200 payload of `get_product_detail` (lines 468-474). -/
structure DetailResponse where
  productName : String
  totalQuantityInStock : ℚ
  averageUnitPrice : ℚ
  expirationDateHistory : List String
  movements : List MovementOut
  deriving DecidableEq, Repr

/-- The body of the view function `get_product_detail` (lines 395-476), as
a function of its parameter `product_name_from_url` (`name` here), of the
product document looked up under the stripped name, and of the result of
the `movements` query for that product (already filtered and sorted by the
store).  Errors carry the HTTP status.  Note that no request ever reaches
this body: see `products_route` for the route dispatch. -/
def get_product_detail (name : String) (store : Option ProductDoc)
    (movs : List MovementDoc) : Except ℕ DetailResponse :=
  if pyStrip name = "" then Except.error 400
  else
    match store with
    | none => Except.error 404
    | some d =>
        Except.ok
          { productName := pyStrip name
            totalQuantityInStock := total_quantity_in_stock d
            averageUnitPrice := round2 (average_unit_price movs)
            expirationDateHistory := expiration_date_history movs
            movements := movs.map movementOutOf }

/-- The URL-rule parameter name bound by the route decorator
`@app.route('/products/<string:product_name>')` at line 393. -/
def products_route_arg : String := "product_name"

/-- The parameter name of the view function
`def get_product_detail(product_name_from_url)` at line 395. -/
def get_product_detail_param : String := "product_name_from_url"

/-- Dispatch of `GET /products/<name>` for a logged-in user: Flask calls
the view function with the URL value bound to the keyword argument named
by the rule, which succeeds exactly when that name matches the view
function's parameter name.  Here the two names disagree, so the call
raises `TypeError`; the global `@app.errorhandler(Exception)` (lines
488-502) is not given an `HTTPException`, so it logs and answers 500 —
the view body never runs. -/
def products_route (name : String) (store : Option ProductDoc)
    (movs : List MovementDoc) : Except ℕ DetailResponse :=
  if products_route_arg = get_product_detail_param then
    get_product_detail name store movs
  else Except.error 500

/-! ## Specification-side definitions

Definitions below are written from the words of the spec / claims, to be
compared with the functions modelled from the source. -/

/-- From the claim: a field that is present on the document and not null. -/
def fieldPresent (v : Option JVal) : Bool :=
  match v with
  | none => false
  | some JVal.null => false
  | some _ => true

/-- Amended dashboard emission condition: `quantity` and `lastUpdatedBy`
present and non-null, and `productName` not stored as an explicit null
(an absent `productName` falls back to the document id and is emitted). -/
def dashKeep (d : ProductDoc) : Bool :=
  fieldPresent d.quantity && fieldPresent d.lastUpdatedBy &&
    decide (d.productName ≠ some JVal.null)

/-- Running stock of a product state: the stored `quantity`, with the
absent-document and absent-field defaults of the source (both 0). -/
def storedQuantity (s : Option Product) : ℚ :=
  (s.getD {}).quantity.getD 0

/-! ## Helper lemmas -/

lemma dash_keep_iff (d : ProductDoc) :
    ((dashboardItemOf d).productName ≠ JVal.null ∧
      (dashboardItemOf d).quantity ≠ JVal.null ∧
      (dashboardItemOf d).lastUpdatedBy ≠ JVal.null) ↔ dashKeep d = true := by
  rcases d with ⟨id, pn, q, ne, lu⟩
  rcases pn with _ | pv <;> rcases q with _ | qv <;> rcases lu with _ | lv <;>
    (try cases pv) <;> (try cases qv) <;> (try cases lv) <;>
    simp [dashboardItemOf, dashKeep, fieldPresent]

lemma carico_result (store : Option Product) (mv : Movement) (userId : String)
    (now : ℕ) (hty : mv.movementType = "carico") :
    ∃ p', update_product_stock_transactional store mv userId now = Except.ok p' ∧
      p'.quantity = some ((store.getD {}).quantity.getD 0 + mv.quantity) := by
  unfold update_product_stock_transactional
  rw [hty]
  simp only [if_pos rfl]
  refine ⟨_, rfl, ?_⟩
  repeat' split
  all_goals rfl

lemma applyMovement_nonneg (now : ℕ) (s : Option Product) (req : String × Movement)
    (h : 0 ≤ storedQuantity s) (hq : 0 < req.2.quantity) :
    0 ≤ storedQuantity (applyMovement now s req) := by
  by_cases hty : req.2.movementType = "carico"
  · obtain ⟨p', hp', hq'⟩ := carico_result s req.2 req.1 now hty
    unfold applyMovement
    rw [hp']
    simp only [storedQuantity, Option.getD_some, hq']
    have : 0 ≤ (s.getD {}).quantity.getD 0 := h
    linarith
  · unfold applyMovement update_product_stock_transactional
    rw [if_neg hty]
    by_cases hts : req.2.movementType = "scarico"
    · rw [if_pos hts]
      cases s with
      | none => exact h
      | some p =>
        simp only []
        by_cases hlt : p.quantity.getD 0 < req.2.quantity
        · rw [if_pos hlt]; exact h
        · rw [if_neg hlt]
          simp only [storedQuantity, Option.getD_some]
          push_neg at hlt
          linarith
    · rw [if_neg hts]; exact h

lemma applyMovements_nonneg (now : ℕ) (reqs : List (String × Movement)) :
    ∀ s : Option Product, 0 ≤ storedQuantity s →
      (∀ r ∈ reqs, 0 < r.2.quantity) → 0 ≤ storedQuantity (applyMovements now s reqs) := by
  induction reqs with
  | nil => intro s hs _; exact hs
  | cons r rest ih =>
    intro s hs hq
    have h1 : 0 ≤ storedQuantity (applyMovement now s r) :=
      applyMovement_nonneg now s r hs (hq r (List.mem_cons_self r rest))
    exact ih (applyMovement now s r) h1 (fun x hx => hq x (List.mem_cons_of_mem r hx))

/-! ## Claims -/

/-- C1: starting from the absent-document state (stored quantity defaulting
to 0) and applying any sequence of transactional stock updates whose
movements all have positive quantity (loads add to the running total,
unloads are applied only when the product exists and holds enough stock,
and a failed apply leaves the state unchanged), every reachable product
document has a non-negative stored quantity. -/
theorem c1_quantity_never_negative (now : ℕ) (reqs : List (String × Movement))
    (hq : ∀ r ∈ reqs, 0 < r.2.quantity) :
    ∀ p : Product, applyMovements now none reqs = some p → 0 ≤ p.quantity.getD 0 := by
  intro p hp
  have h := applyMovements_nonneg now reqs none le_rfl hq
  rw [hp] at h
  exact h

/-- A concrete load of 5 of product "P". -/
def mvCarico5 : Movement :=
  { userId := "u1", date := "2025-01-01", supplier := none, movementType := "carico",
    productName := "P", quantity := 5, unitPrice := none, totalValue := 0,
    expiryDate := none, notes := none }

/-- A concrete unload of 3 of product "P". -/
def mvScarico3 : Movement :=
  { userId := "u1", date := "2025-01-02", supplier := none, movementType := "scarico",
    productName := "P", quantity := 3, unitPrice := none, totalValue := 0,
    expiryDate := none, notes := none }

/-- Witness for C1: an unload of 3 against the absent product fails and
leaves the state absent, a following load of 5 creates the document with
stored quantity 0 + 5, which is non-negative. -/
theorem c1_quantity_never_negative_witness :
    0 ≤ (({ productName := some "P", quantity := some ((0 : ℚ) + 5),
            nearestExpiry := none, lastUpdatedBy := some "u1",
            createdAt := some 0 } : Product)).quantity.getD 0 :=
  c1_quantity_never_negative 0 [("u1", mvScarico3), ("u1", mvCarico5)]
    (by decide) _ rfl

/-- C2: for an unload movement accepted by the validator, the `/movements`
route fails with HTTP 400 and the product-not-found domain error when the
product document does not exist, and with HTTP 400 and the
insufficient-stock domain error when it exists but holds less stock than
requested; in both cases the product document and the movement log are
returned unchanged (the transaction raises before writing). -/
theorem c2_unload_failure_modes (userId : String) (data : Payload)
    (store : Option Product) (log : List Movement) (now : ℕ) (mv : Movement)
    (hv : validate_movement userId data = Except.ok mv)
    (hty : mv.movementType = "scarico") :
    (store = none →
      create_movement userId data store log now =
        ⟨400, some (MovementError.domain DomainErr.productNotFound), store, log⟩) ∧
    (∀ p, store = some p → p.quantity.getD 0 < mv.quantity →
      create_movement userId data store log now =
        ⟨400, some (MovementError.domain DomainErr.insufficientStock), store, log⟩) := by
  constructor
  · intro hs
    subst hs
    unfold create_movement
    rw [hv]
    unfold update_product_stock_transactional
    simp [hty]
  · intro p hs hlt
    subst hs
    unfold create_movement
    rw [hv]
    unfold update_product_stock_transactional
    simp [hty, hlt]

/-- The payload of a concrete unload request of 5 of "Farina". -/
def unloadPayload5 : Payload :=
  { date := some (JVal.str "2025-01-15"), movementType := some (JVal.str "scarico"),
    productName := some (JVal.str "Farina"), quantity := some (JVal.num 5) }

/-- The canonical record the validator builds from `unloadPayload5`. -/
def unloadMv5 : Movement :=
  { userId := "u1", date := "2025-01-15", supplier := none, movementType := "scarico",
    productName := "Farina", quantity := 5, unitPrice := none, totalValue := 0,
    expiryDate := none, notes := none }

/-- A stored "Farina" product document holding quantity 3. -/
def farina3 : Product :=
  { productName := some "Farina", quantity := some 3, nearestExpiry := none,
    lastUpdatedBy := some "u0", createdAt := some 9 }

/-- Witness for C2: a concrete unload of 5 against an absent product gives
the product-not-found 400, and against a product holding 3 gives the
insufficient-stock 400, leaving store and log unchanged. -/
theorem c2_unload_failure_modes_witness :
    create_movement "u1" unloadPayload5 none [] 0 =
      ⟨400, some (MovementError.domain DomainErr.productNotFound), none, []⟩ ∧
    create_movement "u1" unloadPayload5 (some farina3) [] 0 =
      ⟨400, some (MovementError.domain DomainErr.insufficientStock), some farina3, []⟩ :=
  ⟨(c2_unload_failure_modes "u1" unloadPayload5 none [] 0 unloadMv5
      (by decide) rfl).1 rfl,
   (c2_unload_failure_modes "u1" unloadPayload5 (some farina3) [] 0 unloadMv5
      (by decide) rfl).2 farina3 rfl (by decide)⟩

/-- C5 counterexample: a product document with no `productName` field at all
(but with `quantity` and `lastUpdatedBy`) is emitted by the dashboard —
`productName` falls back to the document id — whereas the claim says any
document missing one of the three fields is skipped. -/
theorem c5_dashboard_counterexample :
    (({ id := "Farina", productName := none, quantity := some (JVal.num 5),
        lastUpdatedBy := some (JVal.str "u1") } : ProductDoc)).productName = none ∧
    get_dashboard_data
        [{ id := "Farina", productName := none, quantity := some (JVal.num 5),
           lastUpdatedBy := some (JVal.str "u1") }] =
      [{ productName := JVal.str "Farina", quantity := JVal.num 5,
         nearestExpiry := JVal.null, lastUpdatedBy := JVal.str "u1" }] := by
  decide

/-- C5 (amended): the dashboard emits an entry for a product document
exactly when `quantity` and `lastUpdatedBy` are present and non-null and
`productName` is not stored as an explicit null; a document with no
`productName` field is still emitted, its name falling back to the
document id. -/
theorem c5_dashboard_emission (docs : List ProductDoc) :
    get_dashboard_data docs = (docs.filter dashKeep).map dashboardItemOf := by
  induction docs with
  | nil => rfl
  | cons d rest ih =>
    rw [get_dashboard_data, List.filter_cons]
    cases hk : dashKeep d with
    | false =>
      have hnot : ¬((dashboardItemOf d).productName ≠ JVal.null ∧
          (dashboardItemOf d).quantity ≠ JVal.null ∧
          (dashboardItemOf d).lastUpdatedBy ≠ JVal.null) := by
        intro hc
        have ht := (dash_keep_iff d).1 hc
        rw [ht] at hk
        exact absurd hk (by decide)
      rw [if_neg hnot, if_neg (by decide : ¬(false = true)), ih]
    | true =>
      rw [if_pos ((dash_keep_iff d).2 hk), if_pos rfl, ih, List.map_cons]

/-- C9: a successful unload writes exactly the `quantity` and
`lastUpdatedBy` fields of the product document; `nearestExpiry`,
`createdAt` and `productName` are untouched, whatever the movement's
`expiryDate` is. -/
theorem c9_unload_frame (p : Product) (mv : Movement) (userId : String)
    (now : ℕ) (p' : Product) (hty : mv.movementType = "scarico")
    (h : update_product_stock_transactional (some p) mv userId now = Except.ok p') :
    p' = { p with quantity := some (p.quantity.getD 0 - mv.quantity),
                  lastUpdatedBy := some userId } := by
  unfold update_product_stock_transactional at h
  rw [hty] at h
  rw [if_neg (by decide : ¬("scarico" : String) = "carico"), if_pos rfl] at h
  have h' : (if p.quantity.getD 0 < mv.quantity then
        (Except.error DomainErr.insufficientStock : Except DomainErr Product)
      else
        Except.ok { p with quantity := some (p.quantity.getD 0 - mv.quantity),
                           lastUpdatedBy := some userId }) = Except.ok p' := h
  split at h'
  · exact absurd h' (by simp)
  · exact (Except.ok.inj h').symm

/-- A stored product document of "P" holding 5 with an expiry and creation
timestamp, used to witness the unload frame property. -/
def prodP5 : Product :=
  { productName := some "P", quantity := some 5, nearestExpiry := some "2025-05-01",
    lastUpdatedBy := some "u0", createdAt := some 7 }

/-- A concrete unload of 3 of "P" that carries an expiry date. -/
def mvScarico3WithExpiry : Movement :=
  { userId := "u1", date := "2025-01-02", supplier := none, movementType := "scarico",
    productName := "P", quantity := 3, unitPrice := none, totalValue := 0,
    expiryDate := some "2024-01-01", notes := none }

/-- Witness for C9: an unload of 3 carrying an (ignored) expiry date leaves
`nearestExpiry`, `createdAt` and `productName` as they were. -/
theorem c9_unload_frame_witness :
    ({ productName := some "P", quantity := some ((5 : ℚ) - 3),
       nearestExpiry := some "2025-05-01", lastUpdatedBy := some "u1",
       createdAt := some 7 } : Product) =
      { prodP5 with quantity := some (prodP5.quantity.getD 0 - mvScarico3WithExpiry.quantity),
                    lastUpdatedBy := some "u1" } :=
  c9_unload_frame prodP5 mvScarico3WithExpiry "u1" 0 _ rfl rfl

/-- From the claim: the product currently has no `nearestExpiry` — the field
is absent, or holds the (Python-falsy) empty string. -/
def noNearestExpiry (store : Option Product) : Bool :=
  match (store.getD {}).nearestExpiry with
  | none => true
  | some c => c = ""

/-- From the claim: the movement's expiry date parses and is strictly
earlier than the stored one, which also parses. -/
def expiryParsesEarlier (e : String) (store : Option Product) : Bool :=
  match (store.getD {}).nearestExpiry with
  | some c =>
    match parseYMD e, parseYMD c with
    | some de, some dc => ymdLt de dc
    | _, _ => false
  | none => false

/-- A load of quantity 1 of "P" carrying expiry date `e`. -/
def loadExpiry (e : String) : Movement :=
  { userId := "u1", date := "2025-01-01", supplier := none, movementType := "carico",
    productName := "P", quantity := 1, unitPrice := none, totalValue := 0,
    expiryDate := some e, notes := none }

/-- C3: a load carrying a non-empty `expiryDate` always succeeds, and sets
the product's `nearestExpiry` to it exactly when the product has no current
`nearestExpiry` or the movement's date parses strictly earlier than the
stored one (in particular, a stored `nearestExpiry` that fails to parse
leaves the comparison skipped and the stored value unchanged, without an
error); two loads with expiries 2025-06-01 then 2025-05-01 end with
2025-05-01, and in the opposite order 2025-05-01 also remains. -/
theorem c3_nearest_expiry_policy :
    (∀ (store : Option Product) (mv : Movement) (userId : String) (now : ℕ) (e : String),
      mv.movementType = "carico" → mv.expiryDate = some e → e ≠ "" →
      ∃ p', update_product_stock_transactional store mv userId now = Except.ok p' ∧
        ((noNearestExpiry store = true ∨ expiryParsesEarlier e store = true) →
            p'.nearestExpiry = some e) ∧
        (¬(noNearestExpiry store = true ∨ expiryParsesEarlier e store = true) →
            p'.nearestExpiry = (store.getD {}).nearestExpiry)) ∧
    ((applyMovements 0 none
        [("u1", loadExpiry "2025-06-01"), ("u1", loadExpiry "2025-05-01")]).getD
        {}).nearestExpiry = some "2025-05-01" ∧
    ((applyMovements 0 none
        [("u1", loadExpiry "2025-05-01"), ("u1", loadExpiry "2025-06-01")]).getD
        {}).nearestExpiry = some "2025-05-01" := by
  refine ⟨?_, by decide, by decide⟩
  intro store mv userId now e hty hexp he
  unfold update_product_stock_transactional
  rw [hty, if_pos rfl, hexp]
  dsimp only
  rw [if_neg he]
  refine ⟨_, rfl, ?_⟩
  have hshould :
      (match (store.getD {}).nearestExpiry with
        | none => true
        | some c =>
          if c = "" then true
          else
            match parseYMD e, parseYMD c with
            | some de, some dc => ymdLt de dc
            | _, _ => false) =
        (noNearestExpiry store || expiryParsesEarlier e store) := by
    unfold noNearestExpiry expiryParsesEarlier
    cases hne : (store.getD {}).nearestExpiry with
    | none => rfl
    | some c =>
      by_cases hc : c = ""
      · simp [hc]
      · cases hpe : parseYMD e <;> cases hpc : parseYMD c <;> simp [hc]
  rw [hshould]
  cases hcond : (noNearestExpiry store || expiryParsesEarlier e store) with
  | false =>
    constructor
    · intro hor
      have htrue : (noNearestExpiry store || expiryParsesEarlier e store) = true := by
        rcases hor with h | h <;> simp [h]
      rw [htrue] at hcond
      exact absurd hcond (by decide)
    · intro _
      rw [if_neg (by decide : ¬(false = true))]
      split <;> rfl
  | true =>
    constructor
    · intro _
      rw [if_pos rfl]
    · intro hnor
      exact absurd ((Bool.or_eq_true _ _).mp hcond) hnor

/-- Witness for C3: a load with expiry 2025-05-01 into the absent product
state sets `nearestExpiry` (the product has no current expiry). -/
theorem c3_nearest_expiry_policy_witness :
    ∃ p', update_product_stock_transactional none (loadExpiry "2025-05-01") "u1" 0 =
        Except.ok p' ∧
      ((noNearestExpiry none = true ∨ expiryParsesEarlier "2025-05-01" none = true) →
          p'.nearestExpiry = some "2025-05-01") ∧
      (¬(noNearestExpiry none = true ∨ expiryParsesEarlier "2025-05-01" none = true) →
          p'.nearestExpiry = ((none : Option Product).getD {}).nearestExpiry) :=
  c3_nearest_expiry_policy.1 none (loadExpiry "2025-05-01") "u1" 0 "2025-05-01"
    rfl rfl (by decide)

lemma except_bind_ok {ε α β : Type} (a : α) (f : α → Except ε β) :
    (Except.ok a : Except ε α) >>= f = f a := rfl

lemma except_bind_err {ε α β : Type} (e : ε) (f : α → Except ε β) :
    (Except.error e : Except ε α) >>= f = Except.error e := rfl

lemma except_throw {ε α : Type} (e : ε) : (throw e : Except ε α) = Except.error e := rfl

lemma except_pure {ε α : Type} (a : α) : (pure a : Except ε α) = Except.ok a := rfl

lemma except_map_ok {ε α β : Type} (f : α → β) (a : α) :
    f <$> (Except.ok a : Except ε α) = Except.ok (f a) := rfl

lemma except_map_err {ε α β : Type} (f : α → β) (e : ε) :
    f <$> (Except.error e : Except ε α) = Except.error e := rfl

/-- A valid load payload of 5 "Farina" whose `unitPrice` field holds `v`. -/
def pricePayload (v : JVal) : Payload :=
  { date := some (JVal.str "2025-01-15"), movementType := some (JVal.str "carico"),
    productName := some (JVal.str "Farina"), quantity := some (JVal.num 5),
    unitPrice := some v }

/-- The record the validator builds from `pricePayload` when the parsed
unit price is `p`. -/
def caricoRec (p : Option ℚ) : Movement :=
  { userId := "u1", date := "2025-01-15", supplier := none, movementType := "carico",
    productName := "Farina", quantity := 5, unitPrice := p,
    totalValue := match p with | some q => 5 * q | none => 0,
    expiryDate := none, notes := none }

/-- C4 counterexample: a unit price of 0 parses as a number and is not
strictly negative, yet the validator rejects the payload (the source
rejects `parsed_unit_price <= 0`), where the claim says zero is accepted
and treated as "no price". -/
theorem c4_unit_price_zero_counterexample :
    jvalToFloat (JVal.num 0) = some 0 ∧ ¬((0 : ℚ) < 0) ∧
    validate_movement "u1" (pricePayload (JVal.num 0)) =
      Except.error VErr.nonPositiveUnitPrice := by
  refine ⟨rfl, by decide, rfl⟩

/-- C4 (amended): a present `unitPrice` is rejected exactly when it fails
to parse as a number or is not strictly positive; in particular
`unitPrice = 0` is rejected with the positive-unit-price error.  (A present
JSON-null `unitPrice` is read back as absent and accepted with no price.) -/
theorem c4_unit_price_validation (v : JVal) :
    validate_movement "u1" (pricePayload v) =
      (if v = JVal.null then Except.ok (caricoRec none)
       else
         match jvalToFloat v with
         | none => Except.error VErr.invalidUnitPrice
         | some q =>
           if q ≤ 0 then Except.error VErr.nonPositiveUnitPrice
           else Except.ok (caricoRec (some q))) := by
  cases v with
  | null => rfl
  | num q =>
    rw [if_neg (by simp)]
    by_cases hq : q ≤ 0 <;>
      simp +decide [validate_movement, pricePayload, getStrField, getQuantityRaw,
        getUnitPrice, jvalToFloat, pget, checkDateField, getOptionalStr, stripOrNone,
        except_bind_ok, except_bind_err, except_throw, except_pure, except_map_ok, except_map_err, hq, caricoRec]
  | jbool b => cases b <;> rfl
  | str s =>
    rw [if_neg (by simp)]
    cases hp : pyFloat s with
    | none =>
      simp +decide [validate_movement, pricePayload, getStrField, getQuantityRaw,
        getUnitPrice, jvalToFloat, pget, checkDateField, getOptionalStr, stripOrNone,
        except_bind_ok, except_bind_err, except_throw, except_pure, except_map_ok, except_map_err, hp]
    | some q =>
      by_cases hq : q ≤ 0 <;>
        simp +decide [validate_movement, pricePayload, getStrField, getQuantityRaw,
          getUnitPrice, jvalToFloat, pget, checkDateField, getOptionalStr, stripOrNone,
          except_bind_ok, except_bind_err, except_throw, except_pure, except_map_ok, except_map_err, hp, hq, caricoRec]

/-- A valid payload of 5 "Farina" whose `movementType` field holds `s`. -/
def mtPayload (s : String) : Payload :=
  { date := some (JVal.str "2025-01-15"), movementType := some (JVal.str s),
    productName := some (JVal.str "Farina"), quantity := some (JVal.num 5) }

/-- The record the validator builds from `mtPayload s` when `s` is a valid
movement type. -/
def mtRec (s : String) : Movement :=
  { userId := "u1", date := "2025-01-15", supplier := none, movementType := s,
    productName := "Farina", quantity := 5, unitPrice := none, totalValue := 0,
    expiryDate := none, notes := none }

/-- C6: every record accepted by the validator has movement type load
("carico") or unload ("scarico"); on an otherwise-valid payload the
validator accepts exactly those two `movementType` values and rejects any
other non-blank value with the movement-type validation error; at the
route, such a rejection is a 400 that leaves the product document and the
movement log untouched. -/
theorem c6_movement_type_validation :
    (∀ (userId : String) (data : Payload) (mv : Movement),
      validate_movement userId data = Except.ok mv →
      mv.movementType = "carico" ∨ mv.movementType = "scarico") ∧
    (∀ s : String, pyStrip s ≠ "" →
      validate_movement "u1" (mtPayload s) =
        (if s = "carico" ∨ s = "scarico" then Except.ok (mtRec s)
         else Except.error VErr.invalidMovementType)) ∧
    (∀ (s : String) (store : Option Product) (log : List Movement) (now : ℕ),
      pyStrip s ≠ "" → ¬(s = "carico" ∨ s = "scarico") →
      create_movement "u1" (mtPayload s) store log now =
        ⟨400, some (MovementError.validation VErr.invalidMovementType), store, log⟩) := by
  have hfam : ∀ s : String, pyStrip s ≠ "" →
      validate_movement "u1" (mtPayload s) =
        (if s = "carico" ∨ s = "scarico" then Except.ok (mtRec s)
         else Except.error VErr.invalidMovementType) := by
    intro s hs
    by_cases h1 : s = "carico"
    · subst h1; rfl
    · by_cases h2 : s = "scarico"
      · subst h2; rfl
      · rw [if_neg (by tauto)]
        simp +decide [validate_movement, mtPayload, getStrField, getQuantityRaw,
          pget, except_bind_ok, except_bind_err, except_throw, except_pure, except_map_ok, except_map_err, hs, h1, h2]
  refine ⟨?_, hfam, ?_⟩
  · intro userId data mv h
    unfold validate_movement at h
    simp only [bind, Except.bind, pure, Except.pure] at h
    split at h
    · exact absurd h (by simp)
    · split at h
      · exact absurd h (by simp)
      · split at h
        · exact absurd h (by simp)
        · split at h
          · exact absurd h (by simp)
          · split at h
            · exact absurd h (by simp)
            · split at h
              · exact absurd h (by simp)
              · split at h
                · exact absurd h (by simp)
                · split at h
                  · exact absurd h (by simp)
                  · split at h
                    · exact absurd h (by simp)
                    · split at h
                      · exact absurd h (by simp)
                      · split at h
                        · exact absurd h (by simp)
                        · split at h
                          · exact absurd h (by simp)
                          · split at h
                            · exact absurd h (by simp)
                            · injection h with h2
                              subst h2
                              simp_all
                              tauto
  · intro s store log now hs hbad
    have hv := hfam s hs
    rw [if_neg hbad] at hv
    unfold create_movement
    rw [hv]

/-- Witness for C6: the value "foo" is rejected with the movement-type
error and the route returns 400 leaving an empty store and log unchanged. -/
theorem c6_movement_type_validation_witness :
    create_movement "u1" (mtPayload "foo") none [] 0 =
      ⟨400, some (MovementError.validation VErr.invalidMovementType), none, []⟩ :=
  c6_movement_type_validation.2.2 "foo" none [] 0 (by decide) (by decide)

lemma pyStrip_farina : pyStrip "Farina" = "Farina" := rfl

/-- A valid load payload of 5 "Farina" whose `date` field holds `s`. -/
def datePayload (s : String) : Payload :=
  { date := some (JVal.str s), movementType := some (JVal.str "carico"),
    productName := some (JVal.str "Farina"), quantity := some (JVal.num 5) }

/-- The record the validator builds from `datePayload s`. -/
def dateRec (s : String) : Movement :=
  { userId := "u1", date := s, supplier := none, movementType := "carico",
    productName := "Farina", quantity := 5, unitPrice := none, totalValue := 0,
    expiryDate := none, notes := none }

/-- A valid load payload of 5 "Farina" whose `expiryDate` field holds `t`. -/
def expiryPayload (t : String) : Payload :=
  { date := some (JVal.str "2025-01-15"), movementType := some (JVal.str "carico"),
    productName := some (JVal.str "Farina"), quantity := some (JVal.num 5),
    expiryDate := some (JVal.str t) }

/-- The record the validator builds from `expiryPayload t` (an empty-string
expiry is stored as null). -/
def expiryRec (t : String) : Movement :=
  { userId := "u1", date := "2025-01-15", supplier := none, movementType := "carico",
    productName := "Farina", quantity := 5, unitPrice := none, totalValue := 0,
    expiryDate := if t = "" then none else some t, notes := none }

/-- From the claim's words: a strict fixed-width `YYYY-MM-DD` string (four
digit year, two digit month, two digit day, dash separated) denoting a real
calendar date. -/
def specFixedWidthDate (s : String) : Bool :=
  match s.data with
  | [y1, y2, y3, y4, h1, m1, m2, h2, d1, d2] =>
    [y1, y2, y3, y4].all Char.isDigit && h1 = '-' && h2 = '-' &&
    [m1, m2].all Char.isDigit && [d1, d2].all Char.isDigit &&
    (let y := natOfDigits [y1, y2, y3, y4]
     let m := natOfDigits [m1, m2]
     let d := natOfDigits [d1, d2]
     decide (1 ≤ y) && decide (1 ≤ m) && decide (m ≤ 12) && decide (1 ≤ d) &&
       decide (d ≤ daysInMonth y m))
  | _ => false

/-- C8 counterexample: the date "2025-1-2" is not in the fixed-width
`YYYY-MM-DD` format, yet the validator accepts it — CPython's `%m`/`%d`
accept an unpadded month or day — whereas the claim says dates are
accepted exactly when fixed-width. -/
theorem c8_date_format_counterexample :
    specFixedWidthDate "2025-1-2" = false ∧
    validate_movement "u1" (datePayload "2025-1-2") =
      Except.ok (dateRec "2025-1-2") := by
  refine ⟨by decide, rfl⟩

/-- C8 (amended): the `date` field (and a present non-empty `expiryDate`)
is accepted exactly when it parses under `strptime("%Y-%m-%d")` — a
four-digit year and one- or two-digit month and day forming a real calendar
date (so unpadded "2025-1-2" is also accepted) — and otherwise rejected
with the format error naming the offending field; "2025-13-40" is
rejected. -/
theorem c8_date_format_validation :
    (∀ s : String, pyStrip s ≠ "" →
      validate_movement "u1" (datePayload s) =
        (if parseYMD s = none then Except.error (VErr.invalidDateFormat "date")
         else Except.ok (dateRec s))) ∧
    (∀ t : String,
      validate_movement "u1" (expiryPayload t) =
        (if t ≠ "" ∧ parseYMD t = none then
          Except.error (VErr.invalidDateFormat "expiryDate")
         else Except.ok (expiryRec t))) ∧
    validate_movement "u1" (datePayload "2025-13-40") =
      Except.error (VErr.invalidDateFormat "date") := by
  refine ⟨?_, ?_, by decide⟩
  · intro s hs
    have hne : s ≠ "" := fun h => hs (by rw [h]; rfl)
    by_cases hp : parseYMD s = none
    · rw [if_pos hp]
      simp +decide [validate_movement, datePayload, getStrField, getQuantityRaw,
        checkDateField, jtruthy, pget, except_bind_ok, except_bind_err, except_throw,
        except_pure, except_map_ok, except_map_err, hs, hne, hp]
    · rw [if_neg hp]
      simp +decide [validate_movement, datePayload, getStrField, getQuantityRaw,
        getUnitPrice, checkDateField, getOptionalStr, stripOrNone, jtruthy, pget,
        except_bind_ok, except_bind_err, except_throw, except_pure, except_map_ok,
        except_map_err, jvalToFloat, pyStrip_farina, hs, hne, hp, dateRec]
  · intro t
    by_cases ht : t = ""
    · subst ht; rfl
    · by_cases hp : parseYMD t = none
      · rw [if_pos ⟨ht, hp⟩]
        simp +decide [validate_movement, expiryPayload, getStrField, getQuantityRaw,
          getUnitPrice, checkDateField, jtruthy, pget, except_bind_ok, except_bind_err,
          except_throw, except_pure, except_map_ok, except_map_err, ht, hp]
      · rw [if_neg (by tauto)]
        simp +decide [validate_movement, expiryPayload, getStrField, getQuantityRaw,
          getUnitPrice, checkDateField, getOptionalStr, stripOrNone, jtruthy, pget,
          except_bind_ok, except_bind_err, except_throw, except_pure, except_map_ok,
          except_map_err, jvalToFloat, pyStrip_farina, ht, hp, expiryRec]

/-- Witness for C8 (amended): "2025-02-30" is rejected as not a real
calendar date, and "2025-02-28" is accepted. -/
theorem c8_date_format_validation_witness :
    validate_movement "u1" (datePayload "2025-02-30") =
      Except.error (VErr.invalidDateFormat "date") ∧
    validate_movement "u1" (expiryPayload "2025-02-28") =
      Except.ok (expiryRec "2025-02-28") := by
  constructor
  · have h := c8_date_format_validation.1 "2025-02-30" (by decide)
    rw [if_pos (by decide)] at h
    exact h
  · have h := c8_date_format_validation.2.1 "2025-02-28"
    rw [if_neg (by decide)] at h
    exact h

/-- From the claim's words: a load movement whose `unitPrice` is a number
strictly greater than 0. -/
def specQualifiesLoad (m : MovementDoc) : Bool :=
  isCarico m &&
    (match numVal m.unitPrice with
     | some p => decide (0 < p)
     | none => false)

/-- From the claim's words: sum of `unitPrice * quantity` over qualifying
loads divided by the sum of `quantity` over exactly that same subset, and
0 when no load qualifies. -/
def specWeightedAverage (movs : List MovementDoc) : ℚ :=
  let qual := movs.filter specQualifiesLoad
  let num := (qual.map
    (fun m => (numVal m.unitPrice).getD 0 * (numVal m.quantity).getD 0)).sum
  let den := (qual.map (fun m => (numVal m.quantity).getD 0)).sum
  if 0 < den then num / den else 0

/-- A load movement document either is not a load or carries a numeric,
strictly positive `quantity` (every document written by the route does,
since the validator enforces `quantity > 0`). -/
def loadQtyPos (m : MovementDoc) : Bool :=
  !(isCarico m) ||
    (match numVal m.quantity with
     | some q => decide (0 < q)
     | none => false)

/-- A stored "carico" movement document of quantity 10 at unit price 2. -/
def loadDoc10At2 : MovementDoc :=
  { id := "a", movementType := some (JVal.str "carico"),
    quantity := some (JVal.num 10), unitPrice := some (JVal.num 2) }

/-- A stored "carico" movement document of quantity 5 at unit price 0. -/
def loadDoc5At0 : MovementDoc :=
  { id := "b", movementType := some (JVal.str "carico"),
    quantity := some (JVal.num 5), unitPrice := some (JVal.num 0) }

/-- The stored "P" product document used in the concrete C7 scenario. -/
def prodDocP : ProductDoc :=
  { id := "P", productName := some (JVal.str "P"),
    quantity := some (JVal.num 15), lastUpdatedBy := some (JVal.str "u1") }

/-- The intended behaviour of the view body: provided every stored load
movement carries a numeric positive quantity (as the validator guarantees
for log entries), its `averageUnitPrice` is the weighted average over
exactly the loads with `unitPrice > 0`, rounded to 2 decimal places, and 0
when no load qualifies; concretely, loads of (qty 10, price 2) and
(qty 5, price 0) average to 2. -/
lemma detail_body_average_unit_price :
    (∀ (name : String) (d : ProductDoc) (movs : List MovementDoc),
      pyStrip name ≠ "" →
      (∀ m ∈ movs, loadQtyPos m = true) →
      ∃ r, get_product_detail name (some d) movs = Except.ok r ∧
        r.averageUnitPrice = round2 (specWeightedAverage movs) ∧
        (movs.filter specQualifiesLoad = [] → r.averageUnitPrice = 0)) ∧
    (∃ r, get_product_detail "P" (some prodDocP) [loadDoc10At2, loadDoc5At0] =
        Except.ok r ∧ r.averageUnitPrice = 2) := by
  constructor
  · intro name d movs hname hq
    have hfilter : movs.filter loadContributes = movs.filter specQualifiesLoad := by
      apply List.filter_congr
      intro m hm
      have hmq := hq m hm
      unfold loadQtyPos at hmq
      unfold loadContributes specQualifiesLoad
      cases hisc : isCarico m
      · simp
      · rw [hisc] at hmq
        simp only [Bool.not_true, Bool.false_or] at hmq
        cases hnv : numVal m.unitPrice <;> cases hnq : numVal m.quantity <;>
          simp_all
    have havg : average_unit_price movs = specWeightedAverage movs := by
      unfold average_unit_price specWeightedAverage total_value_of_loads
        total_quantity_of_loads
      rw [hfilter]
    refine ⟨_, by rw [get_product_detail, if_neg hname], ?_, ?_⟩
    · show round2 (average_unit_price movs) = round2 (specWeightedAverage movs)
      rw [havg]
    · intro hempty
      show round2 (average_unit_price movs) = 0
      rw [havg]
      unfold specWeightedAverage
      rw [hempty]
      norm_num [round2, roundHalfEven]
  · refine ⟨_, rfl, ?_⟩
    show round2 (average_unit_price [loadDoc10At2, loadDoc5At0]) = 2
    norm_num [average_unit_price, total_value_of_loads, total_quantity_of_loads,
      List.filter, loadContributes, isCarico, numVal, loadDoc10At2, loadDoc5At0,
      round2, roundHalfEven]

/-- The stored `quantity` field of the product document is absent or not a
number (Python booleans count as numbers). -/
def quantityMissingOrNonNumeric (d : ProductDoc) : Bool :=
  match d.quantity with
  | none => true
  | some (JVal.num _) => false
  | some (JVal.jbool _) => false
  | some _ => true

/-- The intended behaviour of the view body: on an existing product whose
stored `quantity` field is missing or not a number, it still succeeds with
`totalQuantityInStock = 0`, the remaining payload (average price, expiry
history, movements) computed from the movement log as usual. -/
lemma detail_body_invalid_quantity_zero (name : String) (d : ProductDoc)
    (movs : List MovementDoc) (hname : pyStrip name ≠ "")
    (hq : quantityMissingOrNonNumeric d = true) :
    get_product_detail name (some d) movs =
      Except.ok
        { productName := pyStrip name, totalQuantityInStock := 0,
          averageUnitPrice := round2 (average_unit_price movs),
          expirationDateHistory := expiration_date_history movs,
          movements := movs.map movementOutOf } := by
  have h0 : total_quantity_in_stock d = 0 := by
    unfold total_quantity_in_stock
    unfold quantityMissingOrNonNumeric at hq
    cases hdq : d.quantity with
    | none => rfl
    | some v => rw [hdq] at hq; cases v <;> simp_all
  unfold get_product_detail
  rw [if_neg hname]
  dsimp only
  rw [h0]

/-- A "P" product document whose quantity field holds a (non-numeric)
string. -/
def prodDocBadQty : ProductDoc :=
  { id := "P", productName := some (JVal.str "P"),
    quantity := some (JVal.str "bad"), lastUpdatedBy := some (JVal.str "u1") }

/-- C7 (the product-detail request never returns an average): the route
rule at line 393 names the URL parameter `product_name` while the view
function's parameter at line 395 is `product_name_from_url`, so Flask's
keyword-argument call raises `TypeError` on every `GET /products/<name>`
request and the global handler answers 500 — no request ever returns an
`averageUnitPrice`.  The view body itself, had the parameter reached it,
computes the claimed weighted average: loads of (qty 10, price 2) and
(qty 5, price 0) average to 2. -/
theorem c7_average_unit_price_unreachable :
    (products_route_arg == get_product_detail_param) = false ∧
    (∀ (name : String) (store : Option ProductDoc) (movs : List MovementDoc),
      products_route name store movs = Except.error 500) ∧
    (∃ r, get_product_detail "P" (some prodDocP) [loadDoc10At2, loadDoc5At0] =
        Except.ok r ∧ r.averageUnitPrice = 2) := by
  refine ⟨by decide, ?_, detail_body_average_unit_price.2⟩
  intro name store movs
  unfold products_route
  rw [if_neg (by decide)]

/-- C10 (the product-detail request never returns 200): because of the same
parameter-name mismatch between the route rule (line 393) and the view
function (line 395), every detail request — in particular one for a product
whose stored `quantity` is the non-numeric string "bad" — raises
`TypeError` and is answered 500 by the global handler, not 200; the view
body itself, had the parameter reached it, would return the success payload
with `totalQuantityInStock = 0` and the rest computed from the log. -/
theorem c10_invalid_quantity_unreachable :
    (products_route_arg == get_product_detail_param) = false ∧
    (∀ (name : String) (store : Option ProductDoc) (movs : List MovementDoc),
      products_route name store movs = Except.error 500) ∧
    get_product_detail "P" (some prodDocBadQty) [loadDoc10At2] =
      Except.ok
        { productName := pyStrip "P", totalQuantityInStock := 0,
          averageUnitPrice := round2 (average_unit_price [loadDoc10At2]),
          expirationDateHistory := expiration_date_history [loadDoc10At2],
          movements := [loadDoc10At2].map movementOutOf } := by
  refine ⟨by decide, ?_,
    detail_body_invalid_quantity_zero "P" prodDocBadQty [loadDoc10At2]
      (by decide) (by decide)⟩
  intro name store movs
  unfold products_route
  rw [if_neg (by decide)]

end Casale
